import Mathlib

/-!
Shallow embedding of `src/add_files_to_xcode.py` (the batch file registrar).

The script changes into a fixed project directory, then iterates a fixed
13-entry list of relative paths.  For each listed path it checks existence;
if the path exists it prints an informational line and shells out to
`osascript` asking Xcode to open the absolute path, printing two error lines
on command failure; if the path is missing it prints a warning line.  After
the loop it prints one fixed closing message and exits normally.

The embedding models
  * the filesystem as a function `String → Option String` from absolute
    paths to optional file contents (`none` = the path does not exist);
  * directory existence as a function `String → Bool` consulted by the
    initial `os.chdir`;
  * the external command runner as a function `String → CmdResult` giving
    the exit status and the captured stdout/stderr of the shell command;
  * the observable run as a `RunTrace`: the ordered stdout lines, the
    ordered list of external commands issued, and the process exit code
    (an uncaught `os.chdir` failure makes Python exit with status 1).
-/

namespace AddFilesToXcode

/-- Outcome of one external command invocation: exit success flag and the
captured stdout and stderr text (`subprocess.run(..., capture_output=True)`). -/
structure CmdResult where
  exitOk : Bool
  stdout : String
  stderr : String

/-- The fixed working directory hardcoded at line 21 of the script. -/
def project_dir : String := "/Users/henryfritz/Personal Projects/PrestigeNative"

/-- The fixed 13-entry list of relative paths (lines 25–39 of the script). -/
def files_to_add : List String :=
  [ "PrestigeNative/Core/Models/APIEndpoints.swift",
    "PrestigeNative/Core/Models/APIModels.swift",
    "PrestigeNative/Core/Models/PrestigeModels.swift",
    "PrestigeNative/Core/Models/UserModels.swift",
    "PrestigeNative/Core/Networking/APIClient.swift",
    "PrestigeNative/Core/Networking/AuthManager.swift",
    "PrestigeNative/Core/Networking/Services/FriendsService.swift",
    "PrestigeNative/Core/Networking/Services/ProfileService.swift",
    "PrestigeNative/Core/Networking/Services/SpotifyService.swift",
    "PrestigeNative/Features/Authentication/Components/LoadingButton.swift",
    "PrestigeNative/Features/Authentication/ViewModels/LoginViewModel.swift",
    "PrestigeNative/Features/Authentication/Views/AuthenticationView.swift",
    "PrestigeNative/Features/Authentication/Views/LoginView.swift" ]

/-- Model of `os.path.abspath p` with current working directory `cwd`, for the
already-normalised relative paths used by the script (no `.`/`..`
components, no trailing slash): it joins `cwd` and `p` with a slash. -/
def abspath (cwd p : String) : String := cwd ++ "/" ++ p

/-- Model of `os.path.exists` on an absolute path, over the filesystem model:
a path exists iff the filesystem maps it to some contents. -/
def fsExists (fs : String → Option String) (s : String) : Bool := (fs s).isSome

/-- The shell command built at line 46:
`osascript -e 'tell application "Xcode" to open "<abs>";'`,
with the absolute path interpolated verbatim (no escaping). -/
def mkCmd (abs : String) : String :=
  "osascript -e \x27tell application \"Xcode\" to open \"" ++ abs ++ "\";\x27"

/-- Function `run_command` (lines 9–17): runs the shell command; on exit success it
returns the whitespace-stripped captured stdout; on failure it prints two
error lines and returns `None`.  The first component is the list of stdout
lines printed, the second the Python return value. -/
def run_command (run : String → CmdResult) (cmd : String) :
    List String × Option String :=
  if (run cmd).exitOk then
    ([], some ((run cmd).stdout.trim))
  else
    (["Error running command: " ++ cmd, "Error: " ++ (run cmd).stderr], none)

/-- One iteration of the loop at lines 42–49, for path `p`: existence check,
then either the informational line plus the external command (whose error
lines, if any, follow), or the warning line with no command.  First
component: stdout lines; second component: external commands issued. -/
def processFile (fs : String → Option String) (run : String → CmdResult)
    (cwd p : String) : List String × List String :=
  if fsExists fs (abspath cwd p) then
    (("Adding " ++ p ++ " to Xcode project...") ::
       (run_command run (mkCmd (abspath cwd p))).1,
     [mkCmd (abspath cwd p)])
  else
    (["Warning: " ++ p ++ " does not exist"], [])

/-- The whole loop at lines 42–49 over a list of paths, strictly in list
order, concatenating each iteration's stdout lines and issued commands. -/
def processList (fs : String → Option String) (run : String → CmdResult)
    (cwd : String) : List String → List String × List String
  | [] => ([], [])
  | p :: ps =>
      ((processFile fs run cwd p).1 ++ (processList fs run cwd ps).1,
       (processFile fs run cwd p).2 ++ (processList fs run cwd ps).2)

/-- The fixed completion message printed at line 51. -/
def closingMsg : String :=
  "Files added to Xcode project. Please check Xcode to confirm they appear in the navigator."

/-- The observable outcome of one run of the script: the ordered stdout
lines, the ordered external commands issued, and the process exit code. -/
structure RunTrace where
  lines : List String
  cmds : List String
  exitCode : Nat
  deriving DecidableEq, Repr

/-- Function `main` (lines 19–51).  If the fixed working directory does not exist,
`os.chdir` raises an uncaught `FileNotFoundError` before any file
processing, so Python prints nothing to stdout and exits with status 1.
Otherwise the loop runs over the whole fixed list and the closing message
is printed, after which the process exits normally with status 0. -/
def main (dirs : String → Bool) (fs : String → Option String)
    (run : String → CmdResult) : RunTrace :=
  if dirs project_dir then
    { lines := (processList fs run project_dir files_to_add).1 ++ [closingMsg],
      cmds := (processList fs run project_dir files_to_add).2,
      exitCode := 0 }
  else
    { lines := [], cmds := [], exitCode := 1 }

/-- The pure decision logic of one loop iteration (the spec's
"existence/command-construction"): the informational or warning line and
the intended command, before any command execution. -/
def decisionFile (fs : String → Option String) (cwd p : String) :
    List String × List String :=
  if fsExists fs (abspath cwd p) then
    (["Adding " ++ p ++ " to Xcode project..."], [mkCmd (abspath cwd p)])
  else
    (["Warning: " ++ p ++ " does not exist"], [])

/-- The pure decision logic over a list of paths, in list order. -/
def decisionList (fs : String → Option String) (cwd : String) :
    List String → List String × List String
  | [] => ([], [])
  | p :: ps =>
      ((decisionFile fs cwd p).1 ++ (decisionList fs cwd ps).1,
       (decisionFile fs cwd p).2 ++ (decisionList fs cwd ps).2)

/-! ### Concrete environments used by the witnesses -/

/-- Directory model in which every directory exists. -/
def dirsAll : String → Bool := fun _ => true

/-- Directory model in which no directory exists. -/
def dirsNone : String → Bool := fun _ => false

/-- Filesystem in which every path exists, with empty contents. -/
def fsAll : String → Option String := fun _ => some ""

/-- Filesystem with the same existence state as `fsAll` but different contents. -/
def fsAll2 : String → Option String := fun _ => some "different contents"

/-- Filesystem in which no path exists. -/
def fsEmpty : String → Option String := fun _ => none

/-- Runner on which every command succeeds, with padded stdout. -/
def runOk : String → CmdResult :=
  fun _ => { exitOk := true, stdout := " out ", stderr := "" }

/-- Runner with the same exit status and stderr as `runOk` but different stdout. -/
def runOk2 : String → CmdResult :=
  fun _ => { exitOk := true, stdout := "other stdout", stderr := "" }

/-- Runner on which every command fails, with stderr text `boom`. -/
def runFail : String → CmdResult :=
  fun _ => { exitOk := false, stdout := "", stderr := "boom" }

/-! ### Helper lemmas -/

/-- The commands issued by the loop are exactly one `mkCmd` per existing
listed path, in list order. -/
theorem processList_cmds (fs : String → Option String) (run : String → CmdResult)
    (cwd : String) (ps : List String) :
    (processList fs run cwd ps).2
      = (ps.filter (fun p => fsExists fs (abspath cwd p))).map
          (fun p => mkCmd (abspath cwd p)) := by
  induction ps with
  | nil => rfl
  | cons p ps ih =>
      by_cases h : fsExists fs (abspath cwd p)
      · simp [processList, processFile, h, ih]
      · simp [processList, processFile, h, ih]

/-- Every line printed by one loop iteration for a listed path is among the
lines printed by the whole loop. -/
theorem processList_lines_mem (fs : String → Option String) (run : String → CmdResult)
    (cwd p : String) (ps : List String) (hp : p ∈ ps) :
    ∀ l ∈ (processFile fs run cwd p).1, l ∈ (processList fs run cwd ps).1 := by
  induction ps with
  | nil => cases hp
  | cons q qs ih =>
      intro l hl
      rcases List.mem_cons.mp hp with h | h
      · subst h
        exact List.mem_append_left _ hl
      · exact List.mem_append_right _ (ih h l hl)

/-- Every line printed inside the loop starts with `A` (informational),
`W` (warning) or `E` (error): none of them is the closing message. -/
theorem processList_lines_head (fs : String → Option String) (run : String → CmdResult)
    (cwd : String) (ps : List String) :
    ∀ l ∈ (processList fs run cwd ps).1,
      l.data.head? = some 'A' ∨ l.data.head? = some 'W' ∨ l.data.head? = some 'E' := by
  induction ps with
  | nil => intro l hl; cases hl
  | cons p ps ih =>
      intro l hl
      rcases List.mem_append.mp hl with h | h
      · revert h
        unfold processFile
        by_cases hex : fsExists fs (abspath cwd p)
        · simp only [hex, if_pos]
          intro h
          rcases List.mem_cons.mp h with h | h
          · subst h
            left
            rw [String.data_append, String.data_append]
            rfl
          · revert h
            unfold run_command
            by_cases hok : (run (mkCmd (abspath cwd p))).exitOk
            · simp [hok]
            · simp only [hok, if_neg, Bool.false_eq_true, not_false_iff]
              intro h
              rcases List.mem_cons.mp h with h | h
              · subst h
                right; right
                rw [String.data_append]
                rfl
              · rcases List.mem_singleton.mp h with h
                subst h
                right; right
                rw [String.data_append]
                rfl
        · simp only [hex, if_neg, Bool.false_eq_true, not_false_iff,
            List.mem_singleton]
          intro h
          subst h
          right; left
          rw [String.data_append, String.data_append]
          rfl
      · exact ih l h

/-- No line printed inside the loop equals the closing message (the closing
message starts with `F`). -/
theorem processList_lines_ne_closing (fs : String → Option String)
    (run : String → CmdResult) (cwd : String) (ps : List String) :
    ∀ l ∈ (processList fs run cwd ps).1, l ≠ closingMsg := by
  intro l hl hEq
  have h := processList_lines_head fs run cwd ps l hl
  rw [hEq] at h
  have hF : closingMsg.data.head? = some 'F' := rfl
  rw [hF] at h
  rcases h with h | h | h <;> exact absurd (Option.some.inj h) (by decide)

/-- The loop's observable behaviour depends on the filesystem only through
existence, and on the runner only through exit status and stderr. -/
theorem processList_congr (fs₁ fs₂ : String → Option String)
    (run₁ run₂ : String → CmdResult) (cwd : String) (ps : List String)
    (hfs : ∀ s, (fs₁ s).isSome = (fs₂ s).isSome)
    (hrun : ∀ c, (run₁ c).exitOk = (run₂ c).exitOk ∧ (run₁ c).stderr = (run₂ c).stderr) :
    processList fs₁ run₁ cwd ps = processList fs₂ run₂ cwd ps := by
  induction ps with
  | nil => rfl
  | cons p ps ih =>
      have hpf : processFile fs₁ run₁ cwd p = processFile fs₂ run₂ cwd p := by
        unfold processFile fsExists
        rw [hfs (abspath cwd p)]
        by_cases h : (fs₂ (abspath cwd p)).isSome
        · simp only [h, if_pos]
          unfold run_command
          rw [(hrun (mkCmd (abspath cwd p))).1, (hrun (mkCmd (abspath cwd p))).2]
          by_cases hok : (run₂ (mkCmd (abspath cwd p))).exitOk
          · simp [hok]
          · simp [hok]
        · simp [h]
      unfold processList
      rw [hpf, ih]

/-- The intended commands of the pure decision logic: the same filter-map
formula as the executed loop. -/
theorem decisionList_cmds (fs : String → Option String) (cwd : String)
    (ps : List String) :
    (decisionList fs cwd ps).2
      = (ps.filter (fun p => fsExists fs (abspath cwd p))).map
          (fun p => mkCmd (abspath cwd p)) := by
  induction ps with
  | nil => rfl
  | cons p ps ih =>
      by_cases h : fsExists fs (abspath cwd p)
      · simp [decisionList, decisionFile, h, ih]
      · simp [decisionList, decisionFile, h, ih]

/-- The pure decision logic depends on the filesystem only through the
existence predicate. -/
theorem decisionList_congr (fs₁ fs₂ : String → Option String) (cwd : String)
    (ps : List String)
    (hfs : (fun s => fsExists fs₁ s) = (fun s => fsExists fs₂ s)) :
    decisionList fs₁ cwd ps = decisionList fs₂ cwd ps := by
  induction ps with
  | nil => rfl
  | cons p ps ih =>
      unfold decisionList decisionFile
      rw [congrFun hfs (abspath cwd p), ih]

/-! ### Claim theorems -/

/-- C1: for every path in the fixed 13-entry list that exists on the
filesystem, the run issues exactly one external open command for that path,
and commands are issued in list order with no reordering, deduplication, or
retries: the issued command sequence is exactly the in-order filter of the
fixed list to its existing entries, mapped to the open command. -/
theorem main_issues_one_command_per_existing_path_in_order
    (dirs : String → Bool) (fs : String → Option String) (run : String → CmdResult)
    (hd : dirs project_dir = true) :
    (main dirs fs run).cmds
      = (files_to_add.filter (fun p => fsExists fs (abspath project_dir p))).map
          (fun p => mkCmd (abspath project_dir p)) := by
  simp only [main, hd, if_pos]
  exact processList_cmds fs run project_dir files_to_add

/-- Witness for C1 at a concrete environment where every path exists. -/
theorem main_issues_one_command_per_existing_path_in_order_witness :
    dirsAll project_dir = true ∧
    (main dirsAll fsAll runOk).cmds
      = (files_to_add.filter (fun p => fsExists fsAll (abspath project_dir p))).map
          (fun p => mkCmd (abspath project_dir p)) :=
  ⟨rfl, main_issues_one_command_per_existing_path_in_order dirsAll fsAll runOk rfl⟩

/-- C2: for every external open command that fails, the run emits exactly two
error lines to stdout — the failing command text and the captured stderr
text — and continues to the remaining list entries: the issued command
sequence does not depend on the runner at all, and the count of attempted
commands equals the count of existing listed files. -/
theorem failed_command_prints_two_errors_and_continues
    (dirs : String → Bool) (fs : String → Option String)
    (run run' : String → CmdResult) (cmd : String)
    (hd : dirs project_dir = true) (hf : (run cmd).exitOk = false) :
    run_command run cmd
        = (["Error running command: " ++ cmd, "Error: " ++ (run cmd).stderr], none)
    ∧ (main dirs fs run).cmds = (main dirs fs run').cmds
    ∧ (main dirs fs run).cmds.length
        = (files_to_add.filter (fun p => fsExists fs (abspath project_dir p))).length := by
  refine ⟨?_, ?_, ?_⟩
  · simp [run_command, hf]
  · simp only [main, hd, if_pos]
    rw [processList_cmds, processList_cmds]
  · simp only [main, hd, if_pos]
    rw [processList_cmds, List.length_map]

/-- Witness for C2 at a concrete always-failing runner. -/
theorem failed_command_prints_two_errors_and_continues_witness :
    dirsAll project_dir = true ∧ (runFail "c").exitOk = false ∧
    (run_command runFail "c"
        = (["Error running command: " ++ "c", "Error: " ++ (runFail "c").stderr], none)
      ∧ (main dirsAll fsAll runFail).cmds = (main dirsAll fsAll runOk).cmds
      ∧ (main dirsAll fsAll runFail).cmds.length
          = (files_to_add.filter (fun p => fsExists fsAll (abspath project_dir p))).length) :=
  ⟨rfl, rfl,
    failed_command_prints_two_errors_and_continues dirsAll fsAll runFail runOk "c" rfl rfl⟩

/-- C3: for every listed path that does not exist, the loop iteration issues
no external command and prints exactly one warning line naming that path,
and the run continues: the warning line appears in the full run's output,
which still ends normally. -/
theorem missing_path_prints_one_warning_no_command
    (dirs : String → Bool) (fs : String → Option String) (run : String → CmdResult)
    (p : String) (hd : dirs project_dir = true) (hp : p ∈ files_to_add)
    (hne : fsExists fs (abspath project_dir p) = false) :
    processFile fs run project_dir p = (["Warning: " ++ p ++ " does not exist"], [])
    ∧ ("Warning: " ++ p ++ " does not exist") ∈ (main dirs fs run).lines := by
  have hpf : processFile fs run project_dir p
      = (["Warning: " ++ p ++ " does not exist"], []) := by
    simp [processFile, hne]
  refine ⟨hpf, ?_⟩
  simp only [main, hd, if_pos]
  apply List.mem_append_left
  exact processList_lines_mem fs run project_dir p files_to_add hp _
    (by rw [hpf]; exact List.mem_singleton_self _)

/-- Witness for C3 at the empty filesystem and the first listed path. -/
theorem missing_path_prints_one_warning_no_command_witness :
    dirsAll project_dir = true
    ∧ "PrestigeNative/Core/Models/APIEndpoints.swift" ∈ files_to_add
    ∧ fsExists fsEmpty
        (abspath project_dir "PrestigeNative/Core/Models/APIEndpoints.swift") = false
    ∧ (processFile fsEmpty runOk project_dir
          "PrestigeNative/Core/Models/APIEndpoints.swift"
        = (["Warning: " ++ "PrestigeNative/Core/Models/APIEndpoints.swift"
              ++ " does not exist"], [])
      ∧ ("Warning: " ++ "PrestigeNative/Core/Models/APIEndpoints.swift"
            ++ " does not exist")
          ∈ (main dirsAll fsEmpty runOk).lines) :=
  ⟨rfl, by decide, rfl,
    missing_path_prints_one_warning_no_command dirsAll fsEmpty runOk
      "PrestigeNative/Core/Models/APIEndpoints.swift" rfl (by decide) rfl⟩

/-- C4: if the fixed working directory does not exist, the run aborts before
any file processing: the trace is the constant empty one (no stdout lines,
no external commands, exit status 1 from the uncaught exception), it does
not depend on the filesystem or the runner — so no existence check and no
command occurs — and this is the only terminating failure: whenever the
directory exists the run completes with exit status 0. -/
theorem missing_workdir_aborts_before_processing (dirs : String → Bool)
    (fs fs' : String → Option String) (run run' : String → CmdResult)
    (hd : dirs project_dir = false) :
    main dirs fs run = { lines := [], cmds := [], exitCode := 1 }
    ∧ main dirs fs run = main dirs fs' run'
    ∧ (∀ (dirs₂ : String → Bool) (fs₂ : String → Option String)
         (run₂ : String → CmdResult),
        dirs₂ project_dir = true → (main dirs₂ fs₂ run₂).exitCode = 0) := by
  refine ⟨by simp [main, hd], by simp [main, hd], ?_⟩
  intro dirs₂ fs₂ run₂ h₂
  simp [main, h₂]

/-- Witness for C4 at the directory model in which no directory exists. -/
theorem missing_workdir_aborts_before_processing_witness :
    dirsNone project_dir = false
    ∧ (main dirsNone fsAll runOk = { lines := [], cmds := [], exitCode := 1 }
      ∧ main dirsNone fsAll runOk = main dirsNone fsEmpty runFail
      ∧ (∀ (dirs₂ : String → Bool) (fs₂ : String → Option String)
           (run₂ : String → CmdResult),
          dirs₂ project_dir = true → (main dirs₂ fs₂ run₂).exitCode = 0)) :=
  ⟨rfl, missing_workdir_aborts_before_processing dirsNone fsAll fsEmpty runOk runFail rfl⟩

/-- C5: every run that gets past the working-directory change prints the
fixed completion message exactly once, as its last stdout line, regardless
of missing files or failing commands. -/
theorem closing_message_printed_exactly_once
    (dirs : String → Bool) (fs : String → Option String) (run : String → CmdResult)
    (hd : dirs project_dir = true) :
    (main dirs fs run).lines.count closingMsg = 1
    ∧ (main dirs fs run).lines.getLast? = some closingMsg := by
  constructor
  · simp only [main, hd, if_pos]
    rw [List.count_append]
    have h0 : (processList fs run project_dir files_to_add).1.count closingMsg = 0 :=
      List.count_eq_zero.mpr (fun hmem =>
        processList_lines_ne_closing fs run project_dir files_to_add _ hmem rfl)
    rw [h0]
    rfl
  · simp only [main, hd, if_pos]
    exact List.getLast?_concat _

/-- Witness for C5 at an environment with missing files and failing commands. -/
theorem closing_message_printed_exactly_once_witness :
    dirsAll project_dir = true
    ∧ ((main dirsAll fsEmpty runFail).lines.count closingMsg = 1
      ∧ (main dirsAll fsEmpty runFail).lines.getLast? = some closingMsg) :=
  ⟨rfl, closing_message_printed_exactly_once dirsAll fsEmpty runFail rfl⟩

/-- C6: no per-file failure causes a non-zero exit: whenever the run reaches
the per-file loop (the working directory exists), it terminates with exit
status 0, for every filesystem and every runner. -/
theorem exit_code_zero_despite_per_file_failures
    (dirs : String → Bool) (fs : String → Option String) (run : String → CmdResult)
    (hd : dirs project_dir = true) :
    (main dirs fs run).exitCode = 0 := by
  simp [main, hd]

/-- Witness for C6 at an environment where every command fails. -/
theorem exit_code_zero_despite_per_file_failures_witness :
    dirsAll project_dir = true ∧ (main dirsAll fsEmpty runFail).exitCode = 0 :=
  ⟨rfl, exit_code_zero_despite_per_file_failures dirsAll fsEmpty runFail rfl⟩

/-- C7: the decision logic is deterministic: two evaluations over the same
fixed list and the same filesystem existence state construct the same
sequence of intended commands and informational/warning lines, the executed
run's command sequence coincides with the decision logic's intended
commands, and hence both runs issue the same commands even with different
runners. -/
theorem decision_logic_deterministic (dirs : String → Bool)
    (fs₁ fs₂ : String → Option String) (run₁ run₂ : String → CmdResult)
    (hd : dirs project_dir = true)
    (hfs : (fun s => fsExists fs₁ s) = (fun s => fsExists fs₂ s)) :
    decisionList fs₁ project_dir files_to_add
        = decisionList fs₂ project_dir files_to_add
    ∧ (main dirs fs₁ run₁).cmds = (decisionList fs₁ project_dir files_to_add).2
    ∧ (main dirs fs₁ run₁).cmds = (main dirs fs₂ run₂).cmds := by
  refine ⟨decisionList_congr fs₁ fs₂ project_dir files_to_add hfs, ?_, ?_⟩
  · simp only [main, hd, if_pos]
    rw [processList_cmds, decisionList_cmds]
  · simp only [main, hd, if_pos]
    rw [processList_cmds, processList_cmds,
      List.filter_congr (fun p _ => congrFun hfs (abspath project_dir p))]

/-- Witness for C7 at two filesystems with equal existence but different
contents, and two different runners. -/
theorem decision_logic_deterministic_witness :
    dirsAll project_dir = true
    ∧ (fun s => fsExists fsAll s) = (fun s => fsExists fsAll2 s)
    ∧ (decisionList fsAll project_dir files_to_add
          = decisionList fsAll2 project_dir files_to_add
      ∧ (main dirsAll fsAll runOk).cmds
          = (decisionList fsAll project_dir files_to_add).2
      ∧ (main dirsAll fsAll runOk).cmds = (main dirsAll fsAll2 runFail).cmds) :=
  ⟨rfl, rfl, decision_logic_deterministic dirsAll fsAll fsAll2 runOk runFail rfl rfl⟩

/-- C8: beyond the working-directory change, the run's only filesystem
interaction is existence checks: its whole observable trace depends on the
filesystem only through which paths exist, never through any file's
contents — two filesystems with the same existence state but arbitrarily
different contents yield identical runs.  (The embedding threads no
filesystem output state because the source performs no write or delete
call, so the filesystem is unchanged by construction.) -/
theorem filesystem_read_only_through_existence (dirs : String → Bool)
    (fs₁ fs₂ : String → Option String) (run : String → CmdResult)
    (h : (fun s => (fs₁ s).isSome) = (fun s => (fs₂ s).isSome)) :
    main dirs fs₁ run = main dirs fs₂ run := by
  unfold main
  rw [processList_congr fs₁ fs₂ run run project_dir files_to_add
    (fun s => congrFun h s) (fun c => ⟨rfl, rfl⟩)]

/-- Witness for C8 at two filesystems with equal existence and different
contents. -/
theorem filesystem_read_only_through_existence_witness :
    (fun s => (fsAll s).isSome) = (fun s => (fsAll2 s).isSome)
    ∧ main dirsAll fsAll runOk = main dirsAll fsAll2 runOk :=
  ⟨rfl, filesystem_read_only_through_existence dirsAll fsAll fsAll2 runOk rfl⟩

/-- C9: for every existing listed path the executed shell command is exactly
`osascript -e 'tell application "Xcode" to open "<abs>";'` with the absolute
path interpolated verbatim and no escaping: the command the run issues for
the path is that exact concatenation, and for an arbitrary string `q` the
built command holds four double-quote characters plus every double quote of
`q` and two single-quote characters plus every single quote of `q`, so a
path containing either quote character changes the quoting structure. -/
theorem command_string_interpolates_abspath_verbatim
    (dirs : String → Bool) (fs : String → Option String) (run : String → CmdResult)
    (p q : String) (hd : dirs project_dir = true) (hp : p ∈ files_to_add)
    (he : fsExists fs (abspath project_dir p) = true) :
    mkCmd (abspath project_dir p)
        = "osascript -e \x27tell application \"Xcode\" to open \""
            ++ abspath project_dir p ++ "\";\x27"
    ∧ mkCmd (abspath project_dir p) ∈ (main dirs fs run).cmds
    ∧ (mkCmd q).data.count '"' = q.data.count '"' + 4
    ∧ (mkCmd q).data.count '\x27' = q.data.count '\x27' + 2 := by
  have h1 : ("osascript -e \x27tell application \"Xcode\" to open \"").data.count '"'
      = 3 := by decide
  have h2 : ("\";\x27").data.count '"' = 1 := by decide
  have h3 : ("osascript -e \x27tell application \"Xcode\" to open \"").data.count '\x27'
      = 1 := by decide
  have h4 : ("\";\x27").data.count '\x27' = 1 := by decide
  refine ⟨rfl, ?_, ?_, ?_⟩
  · simp only [main, hd, if_pos]
    rw [processList_cmds]
    exact List.mem_map.mpr ⟨p, List.mem_filter.mpr ⟨hp, he⟩, rfl⟩
  · unfold mkCmd
    rw [String.data_append, String.data_append, List.count_append,
      List.count_append, h1, h2]
    omega
  · unfold mkCmd
    rw [String.data_append, String.data_append, List.count_append,
      List.count_append, h3, h4]
    omega

/-- Witness for C9 at the first listed path and a quote-containing string. -/
theorem command_string_interpolates_abspath_verbatim_witness :
    dirsAll project_dir = true
    ∧ "PrestigeNative/Core/Models/APIEndpoints.swift" ∈ files_to_add
    ∧ fsExists fsAll
        (abspath project_dir "PrestigeNative/Core/Models/APIEndpoints.swift") = true
    ∧ (mkCmd (abspath project_dir "PrestigeNative/Core/Models/APIEndpoints.swift")
          = "osascript -e \x27tell application \"Xcode\" to open \""
              ++ abspath project_dir "PrestigeNative/Core/Models/APIEndpoints.swift"
              ++ "\";\x27"
      ∧ mkCmd (abspath project_dir "PrestigeNative/Core/Models/APIEndpoints.swift")
          ∈ (main dirsAll fsAll runOk).cmds
      ∧ (mkCmd "/tmp/a\"b\x27c").data.count '"' = ("/tmp/a\"b\x27c").data.count '"' + 4
      ∧ (mkCmd "/tmp/a\"b\x27c").data.count '\x27'
          = ("/tmp/a\"b\x27c").data.count '\x27' + 2) :=
  ⟨rfl, by decide, rfl,
    command_string_interpolates_abspath_verbatim dirsAll fsAll runOk
      "PrestigeNative/Core/Models/APIEndpoints.swift" "/tmp/a\"b\x27c"
      rfl (by decide) rfl⟩

/-- C10: `run_command` returns the whitespace-stripped captured stdout on
success and returns `None` exactly when the command fails (after the two
error lines), and `main` discards the return value: the whole run trace
depends on the runner only through exit status and stderr, so the captured
stdout of a successful command never appears in the program's output. -/
theorem run_command_stdout_returned_then_discarded
    (dirs : String → Bool) (fs : String → Option String)
    (run₁ run₂ : String → CmdResult) (cmd : String)
    (hagree : (fun c => ((run₁ c).exitOk, (run₁ c).stderr))
        = (fun c => ((run₂ c).exitOk, (run₂ c).stderr))) :
    (run_command run₁ cmd).2
        = (if (run₁ cmd).exitOk then some ((run₁ cmd).stdout.trim) else none)
    ∧ ((run_command run₁ cmd).2 = none ↔ (run₁ cmd).exitOk = false)
    ∧ main dirs fs run₁ = main dirs fs run₂ := by
  have hpt : ∀ c, (run₁ c).exitOk = (run₂ c).exitOk
      ∧ (run₁ c).stderr = (run₂ c).stderr := by
    intro c
    have hc := congrFun hagree c
    exact ⟨congrArg Prod.fst hc, congrArg Prod.snd hc⟩
  refine ⟨?_, ?_, ?_⟩
  · by_cases h : (run₁ cmd).exitOk <;> simp [run_command, h]
  · by_cases h : (run₁ cmd).exitOk <;> simp [run_command, h]
  · unfold main
    rw [processList_congr fs fs run₁ run₂ project_dir files_to_add
      (fun s => rfl) hpt]

/-- Witness for C10 at two successful runners differing only in stdout. -/
theorem run_command_stdout_returned_then_discarded_witness :
    (fun c => ((runOk c).exitOk, (runOk c).stderr))
        = (fun c => ((runOk2 c).exitOk, (runOk2 c).stderr))
    ∧ ((run_command runOk "c").2
          = (if (runOk "c").exitOk then some ((runOk "c").stdout.trim) else none)
      ∧ ((run_command runOk "c").2 = none ↔ (runOk "c").exitOk = false)
      ∧ main dirsAll fsAll runOk = main dirsAll fsAll runOk2) :=
  ⟨rfl, run_command_stdout_returned_then_discarded dirsAll fsAll runOk runOk2 "c" rfl⟩

end AddFilesToXcode
